import Mathlib

attribute [local semireducible] Rat.add Rat.mul Rat.sub Rat.inv Rat.ofScientific
/-!
Shallow embedding of the dashcam-telemetry core (YOUQINGGPS binary parser,
NMEA angle codec, GPS data model) for checking the repository's
natural-language specification.

Byte buffers are `List Nat` with each byte in `0..255`; 32-bit floats are
decoded exactly from their IEEE-754 bit pattern into an `F32Val`
(a rational for finite values, with explicit infinity/NaN constructors);
machine integers are `Nat` read little-endian.  Python's `datetime`
construction is modelled by a validity predicate over the six fields.
-/

namespace Dashcam

/-! ## IEEE-754 binary32 values, decoded exactly -/

/-- The exact value of a 32-bit float bit pattern: a rational for finite
values (both zeroes collapse to `0`, matching Python `== 0` semantics),
or an infinity or NaN marker. -/
inductive F32Val where
  | finite (q : ℚ)
  | infVal (neg : Bool)
  | nan
deriving DecidableEq

/-- True exactly when the float compares equal to `0` in Python
(`+0.0` and `-0.0` both do; NaN and infinities do not). -/
def F32Val.eqZero : F32Val → Bool
  | .finite q => decide (q = 0)
  | _ => false

/-- Whether a float value is finite (not an infinity or NaN). -/
def F32Val.isFinite : F32Val → Bool
  | .finite _ => true
  | _ => false

/-- Decode four little-endian bytes as an IEEE-754 binary32 value. -/
def decodeF32 (b0 b1 b2 b3 : Nat) : F32Val :=
  let w : Nat := b0 + 256 * b1 + 65536 * b2 + 16777216 * b3
  let sign : Nat := w / 2 ^ 31
  let expo : Nat := (w / 2 ^ 23) % 256
  let frac : Nat := w % 2 ^ 23
  if expo = 255 then
    if frac = 0 then .infVal (sign = 1) else .nan
  else
    let mag : ℚ :=
      if expo = 0 then (frac : ℚ) * 2 / 2 ^ 150
      else ((2 ^ 23 + frac : ℕ) : ℚ) * 2 ^ expo / 2 ^ 150
    .finite (if sign = 1 then -mag else mag)

/-- Read the 32-bit float stored little-endian at byte offset `i`. -/
def readF32at (chunk : List Nat) (i : Nat) : F32Val :=
  decodeF32 (chunk.getD i 0) (chunk.getD (i + 1) 0)
    (chunk.getD (i + 2) 0) (chunk.getD (i + 3) 0)

/-- Read the 32-bit unsigned integer stored little-endian at byte offset `i`. -/
def readU32at (chunk : List Nat) (i : Nat) : Nat :=
  chunk.getD i 0 + 256 * chunk.getD (i + 1) 0 + 65536 * chunk.getD (i + 2) 0 +
    16777216 * chunk.getD (i + 3) 0

/-! ## NMEA angle codec (`utils/nmea.py`), over exact rationals -/

/-- Python `int(q)`: truncation toward zero. -/
def truncQ (q : ℚ) : ℤ := if 0 ≤ q then ⌊q⌋ else ⌈q⌉

/-- `nmea_to_decimal`: convert NMEA `DDMM.MMMM` to decimal degrees. -/
def nmea_to_decimal (v : ℚ) : ℚ :=
  let degrees : ℤ := truncQ (v / 100)
  let minutes : ℚ := v - (degrees : ℚ) * 100
  (degrees : ℚ) + minutes / 60

/-- `decimal_to_nmea`: convert decimal degrees to NMEA format.
The source takes `abs(decimal_deg)` in both steps, so the sign is
discarded (hemisphere is carried separately by the record's status bytes). -/
def decimal_to_nmea (d : ℚ) : ℚ :=
  let degrees : ℤ := truncQ |d|
  let minutes : ℚ := (|d| - (degrees : ℚ)) * 60
  (degrees : ℚ) * 100 + minutes

/-! ## Data model (`models.py`) -/

/-- The six fields of a successfully constructed Python `datetime`. -/
structure PyDateTime where
  year : Nat
  month : Nat
  day : Nat
  hour : Nat
  minute : Nat
  second : Nat
deriving DecidableEq

/-- Proleptic Gregorian leap-year rule used by Python `datetime`. -/
def isLeap (y : Nat) : Bool := y % 4 = 0 && (y % 100 ≠ 0 || y % 400 = 0)

/-- Days in a month of the proleptic Gregorian calendar. -/
def daysInMonth (y m : Nat) : Nat :=
  if m = 2 then (if isLeap y then 29 else 28)
  else if m = 4 ∨ m = 6 ∨ m = 9 ∨ m = 11 then 30
  else 31

/-- Exactly the tuples accepted by Python `datetime(y, mo, d, h, mi, s)`. -/
def validDateTime (y mo d h mi s : Nat) : Bool :=
  1 ≤ y && y ≤ 9999 && 1 ≤ mo && mo ≤ 12 && 1 ≤ d && d ≤ daysInMonth y mo &&
    h ≤ 23 && mi ≤ 59 && s ≤ 59

/-- `GPSPoint` dataclass with its field defaults. -/
structure GPSPoint where
  latitude : ℚ
  longitude : ℚ
  timestamp : Option PyDateTime := none
  speed : ℚ := 0
  heading : ℚ := 0
  altitude : Option ℚ := none
  fix_quality : ℤ := 1
  satellites : ℤ := 0
  gsensor_x : Option ℚ := none
  gsensor_y : Option ℚ := none
  gsensor_z : Option ℚ := none
deriving DecidableEq

/-- `GPSPoint.is_valid`. -/
def GPSPoint.is_valid (p : GPSPoint) : Bool :=
  decide (-90 ≤ p.latitude) && decide (p.latitude ≤ 90) &&
    decide (-180 ≤ p.longitude) && decide (p.longitude ≤ 180) &&
    decide (0 < p.fix_quality)

/-- `GPSTrack` dataclass. -/
structure GPSTrack where
  points : List GPSPoint := []
  source_file : String := ""
  device_info : Option (List (String × String)) := none
deriving DecidableEq

/-- `GPSTrack.filter_valid`: new track with only the valid points. -/
def GPSTrack.filter_valid (t : GPSTrack) : GPSTrack :=
  { points := t.points.filter (fun p => p.is_valid),
    source_file := t.source_file,
    device_info := t.device_info }

/-! ## YOUQINGGPS parser (`parsers/youqing.py`) -/

/-- The 8-byte marker `b"freeGPS "`. -/
def markerBytes : List Nat := [102, 114, 101, 101, 71, 80, 83, 32]

/-- The 10-byte brand identifier `b"YOUQINGGPS"`. -/
def brandBytes : List Nat := [89, 79, 85, 81, 73, 78, 71, 71, 80, 83]

/-- `pat` occurs in `content` starting at position `p`. -/
def occursAt (content pat : List Nat) (p : Nat) : Prop :=
  (content.drop p).take pat.length = pat

instance (content pat : List Nat) (p : Nat) : Decidable (occursAt content pat p) := by
  unfold occursAt; infer_instance

/-- Python `bytes.find(pat, start)`: the least position `p ≥ start` at which
`pat` occurs in `content`, if any. -/
def findFrom (content pat : List Nat) (start : Nat) : Option Nat :=
  (List.range' start (content.length + 1 - start)).find?
    (fun p => decide (occursAt content pat p))

/-- The brand check `chunk[12:22] == MARKER_YOUQING` performed by `parse`
on the 256-byte window taken at `p`. -/
def brandOkAt (content : List Nat) (p : Nat) : Bool :=
  decide ((((content.drop p).take 256).drop 12).take 10 = brandBytes)

/-- One character of `bytes.decode("ascii", errors="replace")`: ASCII bytes
map to themselves, all others to U+FFFD. -/
def statusChar (b : Nat) : Nat := if b < 128 then b else 65533

/-- CPython's `datetime` constructor parses its arguments with the C `int`
format, so any argument `≥ 2^31` raises `OverflowError` — which is not a
`ValueError` and therefore escapes the source's `except ValueError`. -/
def dtOverflow (y mo d h mi s : Nat) : Bool :=
  decide (2 ^ 31 ≤ y) || decide (2 ^ 31 ≤ mo) || decide (2 ^ 31 ≤ d) ||
    decide (2 ^ 31 ≤ h) || decide (2 ^ 31 ≤ mi) || decide (2 ^ 31 ≤ s)

/-- Whether the timestamp arguments this chunk passes to `datetime`
(year normalized by the 2000 epoch, then month, day, hour modulo 24,
minute, second) raise `OverflowError`.  The fields are unsigned 32-bit, so
the raw month, day, minute and second — and the year when taken as-is —
can each reach `2^31`; the hour cannot after the modulo. -/
def chunkOverflow (chunk : List Nat) : Bool :=
  dtOverflow
    (if readU32at chunk 44 < 100 then 2000 + readU32at chunk 44
      else readU32at chunk 44)
    (readU32at chunk 60) (readU32at chunk 56) (readU32at chunk 48 % 24)
    (readU32at chunk 52) (readU32at chunk 64)

/-- The point `YouqingParser._parse_chunk` constructs when nothing raises:
timestamp fields, status characters, hemisphere signs, speed, timestamp
calendar validity (a `ValueError` is caught and leaves the timestamp
absent), and the final `GPSPoint` construction. -/
def buildPointVal (chunk : List Nat) (latRaw lonRaw : ℚ) : GPSPoint :=
  let year := readU32at chunk 44
  let hour := readU32at chunk 48
  let minute := readU32at chunk 52
  let day := readU32at chunk 56
  let month := readU32at chunk 60
  let second := readU32at chunk 64
  let s0 := statusChar (chunk.getD 68 0)
  let s1 := statusChar (chunk.getD 69 0)
  let s2 := statusChar (chunk.getD 70 0)
  let lat0 := nmea_to_decimal latRaw
  let lon0 := nmea_to_decimal lonRaw
  let lat := if s1 = 83 then -lat0 else lat0
  let lon := if s2 = 87 then -lon0 else lon0
  let speed : ℚ :=
    if 112 ≤ chunk.length then
      match readF32at chunk 108 with
      | .finite q => if 0 ≤ q ∧ q < 500 then q else 0
      | _ => 0
    else 0
  let year_full := if year < 100 then 2000 + year else year
  let hour_clamped := hour % 24
  let timestamp : Option PyDateTime :=
    if validDateTime year_full month day hour_clamped minute second then
      some ⟨year_full, month, day, hour_clamped, minute, second⟩
    else none
  let fq : ℤ := if s0 = 65 then 1 else 0
  { latitude := lat, longitude := lon, timestamp := timestamp,
    speed := speed, heading := 0, fix_quality := fq }

/-- The tail of `_parse_chunk` after the raw coordinates are found finite
and nonzero.  The `try/except ValueError` around `datetime(...)` absorbs
only calendar errors (the timestamp becomes absent); an argument `≥ 2^31`
raises `OverflowError` during argument conversion, which escapes
`_parse_chunk` — modelled as `.error ()`. -/
def buildPoint (chunk : List Nat) (latRaw lonRaw : ℚ) : Except Unit GPSPoint :=
  if chunkOverflow chunk then .error ()
  else .ok (buildPointVal chunk latRaw lonRaw)

/-- `YouqingParser._parse_chunk`, with Python exceptions made explicit:
`.ok none` is a `return None` rejection, `.ok (some p)` a produced sample,
and `.error ()` an exception escaping `_parse_chunk` (raised by
`nmea_to_decimal`'s `int()` when a raw coordinate is NaN or infinite, or
by `datetime`'s argument conversion when a timestamp field is `≥ 2^31`). -/
def parse_chunk (chunk : List Nat) : Except Unit (Option GPSPoint) :=
  if chunk.length < 72 then .ok none
  else if (readF32at chunk 36).eqZero || (readF32at chunk 40).eqZero then .ok none
  else
    match readF32at chunk 36, readF32at chunk 40 with
    | .finite latRaw, .finite lonRaw =>
      match buildPoint chunk latRaw lonRaw with
      | .ok p => .ok (some p)
      | .error e => .error e
    | _, _ => .error ()

deriving instance DecidableEq for Except

/-- The `try: point = self._parse_chunk(chunk) ... except Exception: pass`
wrapper inside `parse`: a sample, or nothing (rejection or absorbed
exception). -/
def decodeCandidate (chunk : List Nat) : Option GPSPoint :=
  match parse_chunk chunk with
  | .ok (some p) => some p
  | _ => none

/-- The scan loop of `YouqingParser.parse`, restricted to the offsets of the
candidates it examines and keeps (brand check passed).  The loop advances
the cursor to `pos + 8` after every marker match; `fuel` bounds the number
of iterations and is immaterial once at least `content.length + 1`
(see `scanAux_stable`). -/
def scanAux (content : List Nat) : Nat → Nat → List Nat
  | 0, _ => []
  | fuel + 1, offset =>
    match findFrom content markerBytes offset with
    | none => []
    | some pos =>
      (if brandOkAt content pos then [pos] else []) ++ scanAux content fuel (pos + 8)

/-- Offsets of the candidates accepted by the scan of `YouqingParser.parse`. -/
def scanOffsets (content : List Nat) : List Nat :=
  scanAux content (content.length + 1) 0

/-- The full scan-and-decode loop of `YouqingParser.parse`. -/
def parseLoop (content : List Nat) : Nat → Nat → List GPSPoint
  | 0, _ => []
  | fuel + 1, offset =>
    match findFrom content markerBytes offset with
    | none => []
    | some pos =>
      let chunk := (content.drop pos).take 256
      if brandOkAt content pos then
        (match decodeCandidate chunk with
         | some pt => [pt]
         | none => []) ++ parseLoop content fuel (pos + 8)
      else parseLoop content fuel (pos + 8)

/-- `YouqingParser.parse` applied to file content already in memory. -/
def parseContent (content : List Nat) (src : String) : GPSTrack :=
  { points := parseLoop content (content.length + 1) 0,
    source_file := src,
    device_info := some [("format", "YOUQINGGPS")] }

/-- `YouqingParser.parse` including the file read: a read failure is
re-raised as `ParseError`, anything else produces a track. -/
def parse (readResult : Except String (List Nat)) (src : String) :
    Except String GPSTrack :=
  match readResult with
  | .error e => .error ("Failed to read file: " ++ e)
  | .ok content => .ok (parseContent content src)

/-- `YouqingParser.can_parse` applied to file content: only the first
10 MiB are inspected, and only the first marker occurrence inside them. -/
def can_parse (content : List Nat) : Bool :=
  let chunk := content.take (10 * 1024 * 1024)
  match findFrom chunk markerBytes 0 with
  | none => false
  | some pos => decide ((chunk.drop (pos + 12)).take 10 = brandBytes)

/-! ## Concrete inputs for counterexamples and witnesses -/

/-- A 71-byte candidate whose raw latitude and longitude fields both hold
the float `1.0` (bytes `00 00 80 3f`), everything else zero. -/
def exShort71 : List Nat :=
  List.replicate 36 0 ++ [0, 0, 128, 63] ++ [0, 0, 128, 63] ++ List.replicate 27 0

/-- A 72-byte candidate whose raw latitude is a NaN (bytes `00 00 c0 7f`)
and whose raw longitude is `1.0`, everything else zero. -/
def exNaNLat : List Nat :=
  List.replicate 36 0 ++ [0, 0, 192, 127] ++ [0, 0, 128, 63] ++ List.replicate 28 0

/-- A 72-byte candidate with latitude and longitude `1.0` whose month
field holds `2^31` (bytes `00 00 00 80`): the zero-sentinel checks pass
but `datetime`'s argument conversion raises `OverflowError`. -/
def exOverflowMonth : List Nat :=
  List.replicate 36 0 ++ [0, 0, 128, 63] ++ [0, 0, 128, 63] ++
    List.replicate 16 0 ++ [0, 0, 0, 128] ++ List.replicate 8 0

/-- A 72-byte candidate with latitude and longitude `1.0`, year field 24,
hour field 25, day 1, month 13 (not a real month), and status `"ASE"`. -/
def exBadMonth : List Nat :=
  List.replicate 36 0 ++ [0, 0, 128, 63] ++ [0, 0, 128, 63] ++
    [24, 0, 0, 0] ++ [25, 0, 0, 0] ++ [0, 0, 0, 0] ++ [1, 0, 0, 0] ++
    [13, 0, 0, 0] ++ [0, 0, 0, 0] ++ [65, 83, 69] ++ [0]

/-- The sample decoded from `exBadMonth`: NMEA `1.0` decodes to `1/60`
degrees, negated for latitude by the `'S'` status byte, month 13 voids the
timestamp, and the `'A'` status byte gives fix quality 1. -/
def pBadMonth : GPSPoint :=
  { latitude := -(1/60), longitude := 1/60, timestamp := none,
    speed := 0, heading := 0, fix_quality := 1 }

/-- A 112-byte candidate with latitude and longitude `1.0` and the speed
field holding the float `45.5` (bytes `00 00 36 42`), everything else
zero. -/
def exSpeed : List Nat :=
  List.replicate 36 0 ++ [0, 0, 128, 63] ++ [0, 0, 128, 63] ++
    List.replicate 64 0 ++ [0, 0, 54, 66]

/-- The sample decoded from `exSpeed`: speed `45.5 = 91/2` is in range,
all status bytes are `0` so nothing is negated and the fix is invalid. -/
def pSpeed : GPSPoint :=
  { latitude := 1/60, longitude := 1/60, timestamp := none,
    speed := 91/2, heading := 0, fix_quality := 0 }

/-- A 96-byte buffer holding two brand-valid records whose markers start at
offsets 0 and 24 (the second marker sits in the first record's unknown
region, and the second record's brand field doubles as the first record's
coordinate fields). -/
def exTwoRecords : List Nat :=
  markerBytes ++ [0, 0, 0, 0] ++ brandBytes ++ [0, 0] ++
    markerBytes ++ [0, 0, 0, 0] ++ brandBytes ++ List.replicate 14 0 ++
    [0, 0, 128, 63] ++ [0, 0, 128, 63] ++ List.replicate 28 0

/-- A 120-byte buffer whose first record (offset 0) is brand-valid but has
a NaN latitude — decoding it raises — and whose second record (offset 48)
is fully valid with coordinates `1.0`. -/
def exRaiseThenValid : List Nat :=
  markerBytes ++ [0, 0, 0, 0] ++ brandBytes ++ List.replicate 14 0 ++
    [0, 0, 192, 127] ++ [0, 0, 128, 63] ++ [0, 0, 0, 0] ++
    markerBytes ++ [0, 0, 0, 0] ++ brandBytes ++ List.replicate 14 0 ++
    [0, 0, 128, 63] ++ [0, 0, 128, 63] ++ List.replicate 28 0

/-- A 96-byte buffer whose first marker occurrence (offset 0) carries a
wrong (all-zero) brand identifier, while the marker at offset 24 starts a
fully valid record with coordinates `1.0`. -/
def exWrongBrandFirst : List Nat :=
  markerBytes ++ List.replicate 16 0 ++
    markerBytes ++ [0, 0, 0, 0] ++ brandBytes ++ List.replicate 14 0 ++
    [0, 0, 128, 63] ++ [0, 0, 128, 63] ++ List.replicate 28 0

/-! ## Theorems -/

set_option maxRecDepth 100000

/-- C2 counterexample: the round trip does not recover a negative input.
For `d = -1`, `decode(encode(-1)) = 1 ≠ -1` although `|-1| < 180`, so the
claimed recovery "including negative d" fails on the code. -/
theorem nmea_round_trip_neg_fails :
    |(-1 : ℚ)| < 180 ∧ nmea_to_decimal (decimal_to_nmea (-1 : ℚ)) = 1 ∧
      nmea_to_decimal (decimal_to_nmea (-1 : ℚ)) ≠ -1 := by
  refine ⟨by decide, by decide, by decide⟩

/-- C2 (amended): for every `d` with `|d| < 180`, encoding to NMEA and
decoding back recovers `|d|` over the exact arithmetic of the embedded
algorithm — hence recovers `d` itself exactly when `d ≥ 0`; for negative
`d` the sign is lost because `decimal_to_nmea` takes the absolute value
(the hemisphere is carried separately by the status bytes). -/
theorem nmea_round_trip_abs (d : ℚ) (h : |d| < 180) :
    nmea_to_decimal (decimal_to_nmea d) = |d| := by
  have ha0 : (0 : ℚ) ≤ |d| := abs_nonneg d
  have hfl : truncQ |d| = ⌊|d|⌋ := if_pos ha0
  have hDle : ((⌊|d|⌋ : ℚ)) ≤ |d| := Int.floor_le |d|
  have hDlt : |d| < ⌊|d|⌋ + 1 := Int.lt_floor_add_one |d|
  have hD0 : (0 : ℚ) ≤ (⌊|d|⌋ : ℚ) := by exact_mod_cast Int.floor_nonneg.mpr ha0
  have henc : decimal_to_nmea d =
      (⌊|d|⌋ : ℚ) * 100 + (|d| - (⌊|d|⌋ : ℚ)) * 60 := by
    simp only [decimal_to_nmea, hfl]
  have hv0 : (0 : ℚ) ≤ ((⌊|d|⌋ : ℚ) * 100 + (|d| - (⌊|d|⌋ : ℚ)) * 60) / 100 := by
    apply div_nonneg _ (by norm_num)
    linarith
  have hfloor : ⌊((⌊|d|⌋ : ℚ) * 100 + (|d| - (⌊|d|⌋ : ℚ)) * 60) / 100⌋ = ⌊|d|⌋ := by
    rw [Int.floor_eq_iff]
    constructor
    · rw [le_div_iff₀ (by norm_num : (0:ℚ) < 100)]
      linarith
    · rw [div_lt_iff₀ (by norm_num : (0:ℚ) < 100)]
      linarith
  have htr : truncQ (((⌊|d|⌋ : ℚ) * 100 + (|d| - (⌊|d|⌋ : ℚ)) * 60) / 100) = ⌊|d|⌋ := by
    rw [truncQ, if_pos hv0, hfloor]
  simp only [nmea_to_decimal, henc, htr]
  ring

/-- C2 witness: the amended round trip at `d = -77/2`. -/
theorem nmea_round_trip_abs_witness :
    nmea_to_decimal (decimal_to_nmea (-77/2 : ℚ)) = |(-77/2 : ℚ)| :=
  nmea_round_trip_abs (-77/2) (by decide)

/-- A float value compares equal to zero exactly when it is the finite
value `0`. -/
lemma F32Val.eqZero_iff (v : F32Val) : v.eqZero = true ↔ v = .finite 0 := by
  cases v <;> simp [F32Val.eqZero]

/-- ASCII replacement decoding is injective below 128: the decoded
character equals an ASCII code `c` exactly when the byte does. -/
lemma statusChar_eq_iff (b c : Nat) (hc : c < 128) : statusChar b = c ↔ b = c := by
  unfold statusChar
  split
  · exact Iff.rfl
  · omega

lemma parse_chunk_short {chunk : List Nat} (h : chunk.length < 72) :
    parse_chunk chunk = .ok none := by
  simp [parse_chunk, h]

lemma parse_chunk_accept {chunk : List Nat} {a b : ℚ} (hlen : 72 ≤ chunk.length)
    (h36 : readF32at chunk 36 = .finite a) (ha : a ≠ 0)
    (h40 : readF32at chunk 40 = .finite b) (hb : b ≠ 0)
    (hov : chunkOverflow chunk = false) :
    parse_chunk chunk = .ok (some (buildPointVal chunk a b)) := by
  unfold parse_chunk
  rw [if_neg (by omega), h36, h40]
  simp [F32Val.eqZero, ha, hb, buildPoint, hov]

lemma parse_chunk_ok_some {chunk : List Nat} {p : GPSPoint}
    (h : parse_chunk chunk = .ok (some p)) :
    72 ≤ chunk.length ∧ chunkOverflow chunk = false ∧
      ∃ a b, readF32at chunk 36 = .finite a ∧
        readF32at chunk 40 = .finite b ∧ p = buildPointVal chunk a b := by
  unfold parse_chunk at h
  split at h
  · simp at h
  · split at h
    · simp at h
    · split at h
      · next a b h36 h40 =>
        unfold buildPoint at h
        by_cases hov : chunkOverflow chunk = true
        · rw [if_pos hov] at h
          simp at h
        · rw [if_neg hov] at h
          simp at h
          exact ⟨by omega, by simpa using hov, a, b, h36, h40, h.symm⟩
      · simp at h

lemma buildPointVal_latitude (chunk : List Nat) (a b : ℚ) :
    (buildPointVal chunk a b).latitude =
      if chunk.getD 69 0 = 83 then -nmea_to_decimal a else nmea_to_decimal a := by
  by_cases h : chunk.getD 69 0 = 83 <;>
    simp [buildPointVal, statusChar_eq_iff _ 83 (by norm_num), h]

lemma buildPointVal_longitude (chunk : List Nat) (a b : ℚ) :
    (buildPointVal chunk a b).longitude =
      if chunk.getD 70 0 = 87 then -nmea_to_decimal b else nmea_to_decimal b := by
  by_cases h : chunk.getD 70 0 = 87 <;>
    simp [buildPointVal, statusChar_eq_iff _ 87 (by norm_num), h]

lemma buildPointVal_fix_quality (chunk : List Nat) (a b : ℚ) :
    (buildPointVal chunk a b).fix_quality =
      if chunk.getD 68 0 = 65 then 1 else 0 := by
  by_cases h : chunk.getD 68 0 = 65 <;>
    simp [buildPointVal, statusChar_eq_iff _ 65 (by norm_num), h]

/-- C1 counterexample: a 71-byte candidate with nonzero raw coordinates is
rejected by the code (the source checks `len(chunk) < 72`, not 71); a
72-byte candidate whose raw latitude is a nonzero NaN yields no sample
either — decoding raises instead of producing a point; and a 72-byte
candidate with finite nonzero coordinates but month field `2^31` also
yields no sample, because `datetime` raises an `OverflowError` that the
`except ValueError` does not catch. -/
theorem decoder_reject_claim_counterexample :
    (¬ (exShort71.length < 71 ∨ (readF32at exShort71 36).eqZero = true ∨
        (readF32at exShort71 40).eqZero = true) ∧
      parse_chunk exShort71 = .ok none) ∧
    (72 ≤ exNaNLat.length ∧ (readF32at exNaNLat 36).eqZero = false ∧
      (readF32at exNaNLat 40).eqZero = false ∧
      parse_chunk exNaNLat = .error ()) ∧
    (72 ≤ exOverflowMonth.length ∧
      readF32at exOverflowMonth 36 = .finite 1 ∧
      readF32at exOverflowMonth 40 = .finite 1 ∧
      parse_chunk exOverflowMonth = .error () ∧
      decodeCandidate exOverflowMonth = none) := by
  exact ⟨⟨by decide, by decide⟩, ⟨by decide, by decide, by decide, by decide⟩,
    by decide, by decide, by decide, by decide, by decide⟩

/-- C1 (amended): the decoder returns `None` exactly when the candidate is
shorter than 72 bytes (not 71) or a raw coordinate field compares equal to
0; it yields a sample exactly when the candidate is at least 72 bytes
long, both raw coordinate fields are finite and nonzero, and none of the
`datetime` arguments reaches `2^31`.  (A nonzero NaN or infinite raw
coordinate makes `int()` raise, and a timestamp field `≥ 2^31` makes
`datetime` raise `OverflowError` past the `except ValueError`; both are
absorbed by the scan loop, so those candidates also produce no sample.) -/
theorem decoder_reject_iff (chunk : List Nat) :
    (parse_chunk chunk = .ok none ↔
      chunk.length < 72 ∨ (readF32at chunk 36).eqZero = true ∨
        (readF32at chunk 40).eqZero = true) ∧
    ((∃ p, parse_chunk chunk = .ok (some p)) ↔
      72 ≤ chunk.length ∧
        (readF32at chunk 36).isFinite = true ∧ (readF32at chunk 36).eqZero = false ∧
        (readF32at chunk 40).isFinite = true ∧ (readF32at chunk 40).eqZero = false ∧
        chunkOverflow chunk = false) := by
  by_cases hlen : chunk.length < 72
  · refine ⟨by simp [parse_chunk_short hlen, hlen], ?_⟩
    simp [parse_chunk_short hlen]
    omega
  · have hlen' : 72 ≤ chunk.length := by omega
    unfold parse_chunk
    rw [if_neg hlen]
    cases h36 : readF32at chunk 36 with
    | finite a =>
      cases h40 : readF32at chunk 40 with
      | finite b =>
        by_cases ha : a = 0
        · simp [F32Val.eqZero, F32Val.isFinite, ha, hlen]
        · by_cases hb : b = 0
          · simp [F32Val.eqZero, F32Val.isFinite, ha, hb, hlen]
          · by_cases hov : chunkOverflow chunk = true <;>
              simp [F32Val.eqZero, F32Val.isFinite, ha, hb, hov, hlen, hlen',
                buildPoint]
      | infVal s =>
        by_cases ha : a = 0 <;>
          simp [F32Val.eqZero, F32Val.isFinite, ha, hlen]
      | nan =>
        by_cases ha : a = 0 <;>
          simp [F32Val.eqZero, F32Val.isFinite, ha, hlen]
    | infVal s =>
      cases h40 : readF32at chunk 40 with
      | finite b =>
        by_cases hb : b = 0 <;>
          simp [F32Val.eqZero, F32Val.isFinite, hb, hlen]
      | infVal t => simp [F32Val.eqZero, F32Val.isFinite, hlen]
      | nan => simp [F32Val.eqZero, F32Val.isFinite, hlen]
    | nan =>
      cases h40 : readF32at chunk 40 with
      | finite b =>
        by_cases hb : b = 0 <;>
          simp [F32Val.eqZero, F32Val.isFinite, hb, hlen]
      | infVal t => simp [F32Val.eqZero, F32Val.isFinite, hlen]
      | nan => simp [F32Val.eqZero, F32Val.isFinite, hlen]

/-- C4 counterexample: a 72-byte candidate that passes the length and
zero-sentinel checks (raw latitude NaN, raw longitude `1.0`) produces no
sample at all — `nmea_to_decimal`'s `int()` raises — although its
timestamp fields are invalid and the claim promises a sample with an
absent timestamp; and a candidate with finite nonzero coordinates whose
month field is `2^31` (also not a real month) likewise produces no sample,
because `datetime`'s argument conversion raises `OverflowError`, which the
source's `except ValueError` does not catch. -/
theorem nan_passes_checks_no_sample :
    (72 ≤ exNaNLat.length ∧
      (readF32at exNaNLat 36).eqZero = false ∧
      (readF32at exNaNLat 40).eqZero = false ∧
      decodeCandidate exNaNLat = none) ∧
    (72 ≤ exOverflowMonth.length ∧
      (readF32at exOverflowMonth 36).eqZero = false ∧
      (readF32at exOverflowMonth 40).eqZero = false ∧
      readU32at exOverflowMonth 60 = 2 ^ 31 ∧
      decodeCandidate exOverflowMonth = none) := by
  exact ⟨⟨by decide, by decide, by decide, by decide⟩,
    by decide, by decide, by decide, by decide, by decide⟩

/-- C4 (amended): for every candidate that passes the length and
zero-sentinel checks, whose raw coordinate fields are moreover finite, and
whose `datetime` arguments all fit in a C `int` (are below `2^31`), the
decoder normalizes the year (adding 2000 below 100) and the hour
(modulo 24), builds the timestamp from year, month, day, hour, minute,
second exactly when they form a real calendar date/time and leaves it
absent otherwise, while coordinates and speed are still set and no
exception propagates.  (A NaN/infinite coordinate or a timestamp field
`≥ 2^31` instead raises, and that candidate yields no sample.) -/
theorem timestamp_normalization (chunk : List Nat) (a b : ℚ)
    (hlen : 72 ≤ chunk.length)
    (h36 : readF32at chunk 36 = .finite a) (ha : a ≠ 0)
    (h40 : readF32at chunk 40 = .finite b) (hb : b ≠ 0)
    (hov : chunkOverflow chunk = false) :
    ∃ p, parse_chunk chunk = .ok (some p) ∧
      p.timestamp = (if validDateTime
            (if readU32at chunk 44 < 100 then 2000 + readU32at chunk 44
              else readU32at chunk 44)
            (readU32at chunk 60) (readU32at chunk 56) (readU32at chunk 48 % 24)
            (readU32at chunk 52) (readU32at chunk 64) then
          some ⟨(if readU32at chunk 44 < 100 then 2000 + readU32at chunk 44
              else readU32at chunk 44),
            readU32at chunk 60, readU32at chunk 56, readU32at chunk 48 % 24,
            readU32at chunk 52, readU32at chunk 64⟩
        else none) ∧
      p.latitude = (if chunk.getD 69 0 = 83 then -nmea_to_decimal a
          else nmea_to_decimal a) ∧
      p.longitude = (if chunk.getD 70 0 = 87 then -nmea_to_decimal b
          else nmea_to_decimal b) ∧
      p.speed = (if 112 ≤ chunk.length then
          match readF32at chunk 108 with
          | .finite q => if 0 ≤ q ∧ q < 500 then q else 0
          | _ => 0
        else 0) := by
  refine ⟨buildPointVal chunk a b, parse_chunk_accept hlen h36 ha h40 hb hov,
    rfl, buildPointVal_latitude chunk a b, buildPointVal_longitude chunk a b, rfl⟩

/-- C4 witness: the amended statement at the 72-byte candidate with
year 24, hour 25, month 13 and status `"ASE"`. -/
theorem timestamp_normalization_witness :
    ∃ p, parse_chunk exBadMonth = .ok (some p) ∧
      p.timestamp = (if validDateTime
            (if readU32at exBadMonth 44 < 100 then 2000 + readU32at exBadMonth 44
              else readU32at exBadMonth 44)
            (readU32at exBadMonth 60) (readU32at exBadMonth 56)
            (readU32at exBadMonth 48 % 24)
            (readU32at exBadMonth 52) (readU32at exBadMonth 64) then
          some ⟨(if readU32at exBadMonth 44 < 100 then 2000 + readU32at exBadMonth 44
              else readU32at exBadMonth 44),
            readU32at exBadMonth 60, readU32at exBadMonth 56,
            readU32at exBadMonth 48 % 24,
            readU32at exBadMonth 52, readU32at exBadMonth 64⟩
        else none) ∧
      p.latitude = (if exBadMonth.getD 69 0 = 83 then -nmea_to_decimal 1
          else nmea_to_decimal 1) ∧
      p.longitude = (if exBadMonth.getD 70 0 = 87 then -nmea_to_decimal 1
          else nmea_to_decimal 1) ∧
      p.speed = (if 112 ≤ exBadMonth.length then
          match readF32at exBadMonth 108 with
          | .finite q => if 0 ≤ q ∧ q < 500 then q else 0
          | _ => 0
        else 0) :=
  timestamp_normalization exBadMonth 1 1 (by decide) (by decide) (by decide)
    (by decide) (by decide) (by decide)

/-- C6: for every candidate the decoder accepts, the latitude is the
NMEA-decoded raw value negated exactly when status byte 69 is `'S'` (83),
the longitude negated exactly when status byte 70 is `'W'` (87), the fix
quality is 1 exactly when status byte 68 is `'A'` (65) and 0 otherwise,
and the heading is always 0.  Bytes outside ASCII are decoded with the
replacement character, which matches none of `'S'`, `'W'`, `'A'`, so they
never negate or validate and never cause a failure. -/
theorem status_and_fix_decoding (chunk : List Nat) (p : GPSPoint)
    (h : parse_chunk chunk = .ok (some p)) :
    (∃ a b : ℚ, readF32at chunk 36 = .finite a ∧ readF32at chunk 40 = .finite b ∧
      p.latitude = (if chunk.getD 69 0 = 83 then -nmea_to_decimal a
          else nmea_to_decimal a) ∧
      p.longitude = (if chunk.getD 70 0 = 87 then -nmea_to_decimal b
          else nmea_to_decimal b)) ∧
    p.fix_quality = (if chunk.getD 68 0 = 65 then 1 else 0) ∧
    p.heading = 0 := by
  obtain ⟨-, -, a, b, h36, h40, rfl⟩ := parse_chunk_ok_some h
  exact ⟨⟨a, b, h36, h40, buildPointVal_latitude chunk a b,
    buildPointVal_longitude chunk a b⟩, buildPointVal_fix_quality chunk a b, rfl⟩

/-- C6 witness: the accepted candidate `exBadMonth` (status `"ASE"`)
decodes to `pBadMonth` with negated latitude and fix quality 1. -/
theorem status_and_fix_decoding_witness :
    (∃ a b : ℚ, readF32at exBadMonth 36 = .finite a ∧
      readF32at exBadMonth 40 = .finite b ∧
      pBadMonth.latitude = (if exBadMonth.getD 69 0 = 83 then -nmea_to_decimal a
          else nmea_to_decimal a) ∧
      pBadMonth.longitude = (if exBadMonth.getD 70 0 = 87 then -nmea_to_decimal b
          else nmea_to_decimal b)) ∧
    pBadMonth.fix_quality = (if exBadMonth.getD 68 0 = 65 then 1 else 0) ∧
    pBadMonth.heading = 0 :=
  status_and_fix_decoding exBadMonth pBadMonth (by decide)

/-- C7: for every candidate the decoder accepts, the sample's speed equals
the 32-bit float at `[108:112)` exactly when the candidate is at least 112
bytes long and that value is finite and in `[0, 500)`; in every other case
(shorter candidate, value out of range, NaN or infinity) the speed is 0. -/
theorem speed_field_rule (chunk : List Nat) (p : GPSPoint)
    (h : parse_chunk chunk = .ok (some p)) :
    p.speed = (if 112 ≤ chunk.length then
        match readF32at chunk 108 with
        | .finite q => if 0 ≤ q ∧ q < 500 then q else 0
        | _ => 0
      else 0) := by
  obtain ⟨-, -, a, b, -, -, rfl⟩ := parse_chunk_ok_some h
  rfl

/-- C7 witness: the 112-byte candidate with speed field `45.5` decodes to
a sample with speed `91/2`. -/
theorem speed_field_rule_witness :
    pSpeed.speed = (if 112 ≤ exSpeed.length then
        match readF32at exSpeed 108 with
        | .finite q => if 0 ≤ q ∧ q < 500 then q else 0
        | _ => 0
      else 0) :=
  speed_field_rule exSpeed pSpeed (by decide)

/-- C8: `filter_valid` returns a new track whose points are exactly the
filter of the original points by the validity predicate (hence a
subsequence of the original in the original order), with the source file
and device metadata carried over unchanged; and the validity predicate is
precisely latitude in `[-90, 90]`, longitude in `[-180, 180]` and fix
quality positive.  The original track is a pure value and is untouched. -/
theorem filter_valid_frame (t : GPSTrack) (p : GPSPoint) :
    t.filter_valid.points = t.points.filter (fun q => q.is_valid) ∧
    t.filter_valid.points.Sublist t.points ∧
    t.filter_valid.source_file = t.source_file ∧
    t.filter_valid.device_info = t.device_info ∧
    (p.is_valid = true ↔
      (-90 ≤ p.latitude ∧ p.latitude ≤ 90 ∧
        -180 ≤ p.longitude ∧ p.longitude ≤ 180 ∧ 0 < p.fix_quality)) := by
  refine ⟨rfl, List.filter_sublist _, rfl, rfl, ?_⟩
  simp [GPSPoint.is_valid, and_assoc]

/-- C10: a `GPSPoint` constructed with only latitude and longitude takes
the dataclass defaults (`fix_quality = 1`, `speed = 0`, `heading = 0`,
`satellites = 0`, absent timestamp, altitude and accelerometer axes), and
therefore passes `is_valid` whenever its coordinates are in range, even
though no fix status was ever supplied. -/
theorem point_defaults (a b : ℚ) :
    ({ latitude := a, longitude := b } : GPSPoint).fix_quality = 1 ∧
    ({ latitude := a, longitude := b } : GPSPoint).speed = 0 ∧
    ({ latitude := a, longitude := b } : GPSPoint).heading = 0 ∧
    ({ latitude := a, longitude := b } : GPSPoint).satellites = 0 ∧
    ({ latitude := a, longitude := b } : GPSPoint).timestamp = none ∧
    ({ latitude := a, longitude := b } : GPSPoint).altitude = none ∧
    ({ latitude := a, longitude := b } : GPSPoint).gsensor_x = none ∧
    ({ latitude := a, longitude := b } : GPSPoint).gsensor_y = none ∧
    ({ latitude := a, longitude := b } : GPSPoint).gsensor_z = none ∧
    (-90 ≤ a → a ≤ 90 → -180 ≤ b → b ≤ 180 →
      ({ latitude := a, longitude := b } : GPSPoint).is_valid = true) := by
  refine ⟨rfl, rfl, rfl, rfl, rfl, rfl, rfl, rfl, rfl, ?_⟩
  intro h1 h2 h3 h4
  simp [GPSPoint.is_valid, h1, h2, h3, h4]

/-- A marker occurrence leaves at least 8 bytes to the right: the marker
fits inside the buffer. -/
lemma occursAt_marker_le {content : List Nat} {p : Nat}
    (h : occursAt content markerBytes p) : p + 8 ≤ content.length := by
  unfold occursAt at h
  have hlen := congrArg List.length h
  simp [markerBytes] at hlen
  omega

lemma findFrom_some {content pat : List Nat} {start p : Nat}
    (h : findFrom content pat start = some p) :
    start ≤ p ∧ occursAt content pat p := by
  unfold findFrom at h
  have h1 := List.find?_some h
  have h2 := List.mem_of_find?_eq_some h
  rw [List.mem_range'] at h2
  obtain ⟨i, hi, hm⟩ := h2
  exact ⟨by omega, of_decide_eq_true h1⟩

lemma findFrom_none_of_gt {content pat : List Nat} {start : Nat}
    (h : content.length < start) : findFrom content pat start = none := by
  unfold findFrom
  have hz : content.length + 1 - start = 0 := by omega
  rw [hz]
  rfl

lemma scanAux_succ (content : List Nat) (fuel offset : Nat) :
    scanAux content (fuel + 1) offset =
      match findFrom content markerBytes offset with
      | none => []
      | some pos =>
          (if brandOkAt content pos then [pos] else []) ++
            scanAux content fuel (pos + 8) := rfl

lemma scanAux_mem {content : List Nat} :
    ∀ fuel offset p, p ∈ scanAux content fuel offset →
      offset ≤ p ∧ occursAt content markerBytes p ∧ brandOkAt content p = true := by
  intro fuel
  induction fuel with
  | zero => intro offset p hp; simp [scanAux] at hp
  | succ f ih =>
    intro offset p hp
    simp only [scanAux] at hp
    cases hf : findFrom content markerBytes offset with
    | none => rw [hf] at hp; simp at hp
    | some pos =>
      rw [hf] at hp
      obtain ⟨hle, hocc⟩ := findFrom_some hf
      rw [List.mem_append] at hp
      rcases hp with hp | hp
      · by_cases hb : brandOkAt content pos = true
        · rw [if_pos hb] at hp
          simp at hp
          subst hp
          exact ⟨hle, hocc, hb⟩
        · rw [if_neg hb] at hp
          simp at hp
      · obtain ⟨h1, h2, h3⟩ := ih (pos + 8) p hp
        exact ⟨by omega, h2, h3⟩

lemma scanAux_pairwise {content : List Nat} :
    ∀ fuel offset, (scanAux content fuel offset).Pairwise (· < ·) := by
  intro fuel
  induction fuel with
  | zero => intro offset; simp [scanAux]
  | succ f ih =>
    intro offset
    simp only [scanAux]
    cases hf : findFrom content markerBytes offset with
    | none => simp
    | some pos =>
      rw [List.pairwise_append]
      refine ⟨?_, ih (pos + 8), ?_⟩
      · split <;> simp
      · intro x hx y hy
        have hx' : x = pos := by
          revert hx
          split <;> simp
        obtain ⟨h1, -, -⟩ := scanAux_mem f (pos + 8) y hy
        omega

lemma scanAux_stable {content : List Nat} :
    ∀ fuel offset, content.length + 1 - offset ≤ fuel →
      scanAux content fuel offset = scanAux content (fuel + 1) offset := by
  intro fuel
  induction fuel with
  | zero =>
    intro offset h
    have hgt : content.length < offset := by omega
    simp [scanAux, findFrom_none_of_gt hgt]
  | succ f ih =>
    intro offset h
    cases hf : findFrom content markerBytes offset with
    | none => rw [scanAux_succ, scanAux_succ, hf]
    | some pos =>
      rw [scanAux_succ, scanAux_succ, hf]
      dsimp only
      obtain ⟨hle, hocc⟩ := findFrom_some hf
      have h8 := occursAt_marker_le hocc
      rw [ih (pos + 8) (by omega)]

lemma scanOffsets_eq_of_ge {content : List Nat} {m : Nat}
    (h : content.length + 1 ≤ m) : scanAux content m 0 = scanOffsets content :=
  Nat.le_induction rfl
    (fun n hn ihn => by
      rw [← scanAux_stable n 0 (by omega), ihn]) m h

/-- C3 counterexample: no buffer at all contains two brand-valid records
whose markers start 8 bytes apart — the second marker's bytes at offsets
`p+12..p+15` would have to equal both a suffix of the 8-byte marker and a
prefix of the 10-byte brand identifier, which differ. -/
theorem adjacent_records_8_apart_impossible :
    ¬ ∃ (content : List Nat) (p : Nat),
        (occursAt content markerBytes p ∧ brandOkAt content p = true) ∧
        (occursAt content markerBytes (p + 8) ∧
          brandOkAt content (p + 8) = true) := by
  rintro ⟨content, p, ⟨-, hb⟩, ⟨hm, -⟩⟩
  have hb' : (((content.drop p).take 256).drop 12).take 10 = brandBytes :=
    of_decide_eq_true hb
  have h1 : content[p + 12]? = some 89 := by
    have h0 : ((((content.drop p).take 256).drop 12).take 10)[0]? = some 89 := by
      rw [hb']; rfl
    rw [List.getElem?_take_of_lt (by norm_num), List.getElem?_drop,
      List.getElem?_take_of_lt (by norm_num), List.getElem?_drop] at h0
    simpa using h0
  have hm' : (content.drop (p + 8)).take markerBytes.length = markerBytes := hm
  have h2 : content[p + 12]? = some 71 := by
    have h4 : ((content.drop (p + 8)).take markerBytes.length)[4]? = some 71 := by
      rw [hm']; rfl
    rw [List.getElem?_take_of_lt (by norm_num [markerBytes]),
      List.getElem?_drop] at h4
    have heq : p + 8 + 4 = p + 12 := by omega
    rwa [heq] at h4
  rw [h1] at h2
  simp at h2

/-- C3 (amended): after each marker match the scanner advances the search
cursor to `match + 8` whether the brand check succeeds or fails, so the
scan is complete with any fuel of at least `length + 1` (the unbounded
`while` loop terminates on every finite buffer); a marker occurrence whose
10 bytes at `match + 12` differ from the brand identifier yields no
candidate; the yielded offsets are in strictly ascending order; and a
buffer with two valid records whose markers start 24 bytes apart yields
both candidates in ascending order (markers 8 bytes apart cannot both
carry the brand identifier, see the counterexample). -/
theorem scanner_resync_and_order :
    (∀ (content : List Nat) (fuel offset pos : Nat),
        findFrom content markerBytes offset = some pos →
        scanAux content (fuel + 1) offset =
          (if brandOkAt content pos then [pos] else []) ++
            scanAux content fuel (pos + 8)) ∧
    (∀ (content : List Nat) (m : Nat), content.length + 1 ≤ m →
        scanAux content m 0 = scanOffsets content) ∧
    (∀ (content : List Nat) (p : Nat), p ∈ scanOffsets content →
        occursAt content markerBytes p ∧ brandOkAt content p = true) ∧
    (∀ content : List Nat, (scanOffsets content).Pairwise (· < ·)) ∧
    scanOffsets exTwoRecords = [0, 24] := by
  refine ⟨?_, ?_, ?_, ?_, by decide⟩
  · intro content fuel offset pos h
    simp only [scanAux]
    rw [h]
  · intro content m h
    exact scanOffsets_eq_of_ge h
  · intro content p hp
    obtain ⟨-, h2, h3⟩ := scanAux_mem _ _ p hp
    exact ⟨h2, h3⟩
  · intro content
    exact scanAux_pairwise _ 0

/-- C3 witness: the resync equation, scan completeness and the candidate
characterization instantiated on the two-record buffer. -/
theorem scanner_resync_and_order_witness :
    (scanAux exTwoRecords (exTwoRecords.length + 1) 0 =
      (if brandOkAt exTwoRecords 0 then [0] else []) ++
        scanAux exTwoRecords exTwoRecords.length 8) ∧
    scanAux exTwoRecords (exTwoRecords.length + 5) 0 = scanOffsets exTwoRecords ∧
    (occursAt exTwoRecords markerBytes 24 ∧ brandOkAt exTwoRecords 24 = true) :=
  ⟨scanner_resync_and_order.1 exTwoRecords exTwoRecords.length 0 0 (by decide),
    scanner_resync_and_order.2.1 exTwoRecords (exTwoRecords.length + 5) (by decide),
    scanner_resync_and_order.2.2.1 exTwoRecords 24 (by decide)⟩

/-- C5: `parse` raises `ParseError` exactly on a read failure; every
successfully read content yields a track without raising; content with no
marker occurrence yields the empty track rather than an error; and a
candidate whose decoding raises (NaN latitude) is absorbed, the scan
continuing to the next record. -/
theorem parse_totality_and_errors :
    (∀ e src, parse (.error e) src = .error ("Failed to read file: " ++ e)) ∧
    (∀ content src, parse (.ok content) src = .ok (parseContent content src)) ∧
    (∀ content src, findFrom content markerBytes 0 = none →
        parseContent content src =
          { points := [], source_file := src,
            device_info := some [("format", "YOUQINGGPS")] }) ∧
    (parseContent exRaiseThenValid ("f")).points.length = 1 := by
  refine ⟨fun e src => rfl, fun content src => rfl, ?_, by decide⟩
  intro content src h
  unfold parseContent
  simp [parseLoop, h]

/-- C5 witness: a read error surfaces as the `ParseError` message, and a
3-byte buffer with no marker parses to the empty track. -/
theorem parse_totality_and_errors_witness :
    parse (.error ("io")) ("f") = .error ("Failed to read file: " ++ "io") ∧
    parseContent [1, 2, 3] ("g") =
      { points := [], source_file := "g",
        device_info := some [("format", "YOUQINGGPS")] } :=
  ⟨parse_totality_and_errors.1 ("io") ("f"),
    parse_totality_and_errors.2.2.1 [1, 2, 3] ("g") (by decide)⟩

/-- C9: `can_parse` inspects only the first marker occurrence within the
10 MiB prefix — it returns true exactly when that occurrence is followed
at relative offset 12 by the brand identifier, and false when no marker
occurs in the prefix.  Consequently `exWrongBrandFirst`, whose first
marker carries a wrong brand, is refused by the detector even though a
direct parse of the same bytes yields a non-empty track. -/
theorem can_parse_first_marker :
    (∀ (content : List Nat) (pos : Nat),
        findFrom (content.take (10 * 1024 * 1024)) markerBytes 0 = some pos →
        (can_parse content = true ↔
          ((content.take (10 * 1024 * 1024)).drop (pos + 12)).take 10 =
            brandBytes)) ∧
    (∀ content : List Nat,
        findFrom (content.take (10 * 1024 * 1024)) markerBytes 0 = none →
        can_parse content = false) ∧
    can_parse exWrongBrandFirst = false ∧
    (parseContent exWrongBrandFirst ("f")).points.length = 1 := by
  refine ⟨?_, ?_, by decide, by decide⟩
  · intro content pos h
    simp only [can_parse]
    rw [h]
    simp
  · intro content h
    simp only [can_parse]
    rw [h]

/-- C9 witness: the first-marker characterization at `exWrongBrandFirst`
(first marker at offset 0) and the no-marker case on a 3-byte buffer. -/
theorem can_parse_first_marker_witness :
    (can_parse exWrongBrandFirst = true ↔
      ((exWrongBrandFirst.take (10 * 1024 * 1024)).drop (0 + 12)).take 10 =
        brandBytes) ∧
    can_parse [1, 2, 3] = false :=
  ⟨can_parse_first_marker.1 exWrongBrandFirst 0 (by decide),
    can_parse_first_marker.2.1 [1, 2, 3] (by decide)⟩

/-- C10 witness: the default construction at latitude 1, longitude 2. -/
theorem point_defaults_witness :
    ({ latitude := 1, longitude := 2 } : GPSPoint).is_valid = true :=
  (point_defaults 1 2).2.2.2.2.2.2.2.2.2
    (by norm_num) (by norm_num) (by norm_num) (by norm_num)

end Dashcam
